import Mathlib

/-!
Shallow embedding of the go-virtualbox command runner (src/vbcmd.go and
src/import.go). The runner builds an argument vector for an external
executable, optionally prefixes an elevation wrapper, executes the child
process and classifies failures. Platform (runtime.GOOS), the process-wide
Verbose switch and the behaviour of the operating system (child process
results, user and group lookups) are passed as explicit parameters.
-/

/-- Go error values that occur in this code. Each sentinel created by
errors.New is one constructor (errors.New allocates a fresh value, so the
sentinels of this package are distinct from every error produced by the os
or os/exec layer). execError models a value of dynamic type star-exec.Error
(the wrapper returned when starting the child fails), exitError models a
non-zero-exit failure, other models any further error value. -/
inductive GoErr where
  | execErrNotFound
  | errCommandNotFound
  | errMachineExist
  | errMachineNotExist
  | execError (name : String) (wrapped : GoErr)
  | exitError (code : Nat)
  | other (msg : String)
deriving DecidableEq, Repr

/-- Go interface equality on error values: two interface values are equal
iff they hold the same dynamic type and equal values. Distinct constructors
model distinct dynamic types or distinct errors.New allocations, hence
compare unequal. Note: two separately allocated star-exec.Error pointers
would compare by pointer in Go; that case never occurs in this code (the
only comparison is against execErrNotFound, a different dynamic type). -/
def goErrorEq : GoErr → GoErr → Bool
  | .execErrNotFound, .execErrNotFound => true
  | .errCommandNotFound, .errCommandNotFound => true
  | .errMachineExist, .errMachineExist => true
  | .errMachineNotExist, .errMachineNotExist => true
  | .execError n1 w1, .execError n2 w2 => n1 == n2 && goErrorEq w1 w2
  | .exitError c1, .exitError c2 => c1 == c2
  | .other s1, .other s2 => s1 == s2
  | _, _ => false

/-- Go type assertion err.(star-exec.Error): succeeds exactly when the
dynamic type is star-exec.Error, yielding the asserted value. -/
def asExecError : GoErr → Option GoErr
  | e@(.execError _ _) => some e
  | _ => none

/-- The error classification shared by run, runOut and runOutErr
(src/vbcmd.go lines 101-106, 118-122, 134-138):
if ee, ok := err.(star-exec.Error); ok and ee == exec.ErrNotFound then the
sentinel ErrCommandNotFound replaces err, otherwise err passes through.
The comparison is between the asserted star-exec.Error value itself and
exec.ErrNotFound, exactly as the source writes it. -/
def classifyErr (err : GoErr) : GoErr :=
  match asExecError err with
  | some ee => if goErrorEq ee .execErrNotFound then .errCommandNotFound else err
  | none => err

/-- The command struct of src/vbcmd.go lines 36-42: program name, whether
the current user is a sudoer, and whether the next invocation is expected
to run under sudo. -/
structure command where
  program : String
  sudoer : Bool
  «sudo» : Bool
deriving DecidableEq, Repr

/-- type option func(Command): an option mutates the command struct it is
handed a pointer to; modelled as a state transformer on the struct. -/
abbrev option' : Type := command → command

/-- sudo(sudo bool) option (src/vbcmd.go lines 69-74): sets the sudo field
of the pointed-to command. -/
def «sudo» (s : Bool) : option' := fun cmd => { cmd with «sudo» := s }

/-- Body of func (vbcmd command) setOpts(opts ...option)
(src/vbcmd.go lines 62-67). The receiver vbcmd is a copy; each opt is
applied through the pointer taken of that local copy, in order. The result
is the final value of the local copy when setOpts returns. -/
def setOpts (vbcmd : command) (opts : List option') : command :=
  opts.foldl (fun st opt => opt st) vbcmd

/-- Caller-observable effect of the call c.setOpts(opts...). Go passes the
value receiver by copy: setOpts runs on a copy of c, the mutated copy is
discarded when setOpts returns, and the variable of the caller is the
unchanged c. -/
def setOptsCall (c : command) (opts : List option') : command :=
  let _localCopy : command := setOpts c opts
  c

/-- Side effects an invocation can have besides its return value: lines
written through log.Printf, and whether the stdout and stderr of the child
were wired to the console of the parent process. -/
structure Effects where
  log : List String
  stdoutWired : Bool
  stderrWired : Bool
deriving DecidableEq, Repr

/-- Result of running one method body on its (copied) value receiver: the
returned value, the side effects, and the final value of the local receiver
copy (after any deferred calls ran). -/
structure MethodResult (α : Type) where
  ret : α
  eff : Effects
  recv : command

/-- Go call of a value-receiver method on variable c: the method body runs
on a copy of c; its returned value and effects are observed, the final
receiver copy is discarded, and c is unchanged for the caller. -/
def callValueReceiver {α : Type} (method : command → MethodResult α) (c : command) :
    (α × Effects) × command :=
  let r := method c
  ((r.ret, r.eff), c)

/-- Observable behaviour of one child process launch: what it wrote to
stdout and stderr, and the error cmd.Run or cmd.Output reports (none on
success). Indexed by resolved program name and argument vector only: the
child is non-interactive, so its behaviour does not depend on where its
streams are wired. -/
structure ProcResult where
  stdout : String
  stderr : String
  err : Option GoErr
deriving DecidableEq, Repr

/-- The operating system as an oracle from invocation to child behaviour. -/
abbrev Env : Type := String → List String → ProcResult

/-- func (vbcmd command) prepare(args []string) (src/vbcmd.go lines 80-92):
program starts as vbcmd.program and argv empty; when sudoer and sudo hold
and GOOS is not windows, program becomes sudo and vbcmd.program is pushed
onto argv; args are appended verbatim; with Verbose set the resolved
invocation is logged. Returns the (program, argv) pair handed to
exec.Command plus the log lines produced. -/
def prepare (vbcmd : command) (goos : String) (verbose : Bool) (args : List String) :
    (String × List String) × List String :=
  let pa : String × List String :=
    if vbcmd.sudoer && vbcmd.«sudo» && (goos != "windows") then
      ("sudo", [vbcmd.program])
    else
      (vbcmd.program, [])
  let argv := pa.2 ++ args
  ((pa.1, argv),
   if verbose then ["executing: " ++ pa.1 ++ " " ++ String.intercalate " " argv] else [])

/-- The full vector the operating system executes for exec.Command(program,
argv...): the program followed by argv. -/
def execVector (pa : String × List String) : List String := pa.1 :: pa.2

/-- func (vbcmd command) run(args ...string) error (src/vbcmd.go lines
94-108): prepares the invocation, wires both child streams to the parent
when Verbose is set, runs the child, and classifies a failure; the deferred
vbcmd.setOpts(sudo(false)) runs on return, on the local receiver copy. -/
def run (vbcmd : command) (goos : String) (verbose : Bool) (env : Env)
    (args : List String) : MethodResult (Option GoErr) :=
  let p := prepare vbcmd goos verbose args
  let res := env p.1.1 p.1.2
  let ret : Option GoErr :=
    match res.err with
    | some e => some (classifyErr e)
    | none => none
  { ret := ret
    eff := { log := p.2, stdoutWired := verbose, stderrWired := verbose }
    recv := setOptsCall vbcmd [«sudo» false] }

/-- func (vbcmd command) runOut(args ...string) (string, error)
(src/vbcmd.go lines 110-124): captures stdout via cmd.Output, wires stderr
to the parent when Verbose is set, and classifies a failure; the deferred
vbcmd.setOpts(sudo(false)) runs on return, on the local receiver copy. -/
def runOut (vbcmd : command) (goos : String) (verbose : Bool) (env : Env)
    (args : List String) : MethodResult (String × Option GoErr) :=
  let p := prepare vbcmd goos verbose args
  let res := env p.1.1 p.1.2
  { ret := (res.stdout, Option.map classifyErr res.err)
    eff := { log := p.2, stdoutWired := false, stderrWired := verbose }
    recv := setOptsCall vbcmd [«sudo» false] }

/-- func (vbcmd command) runOutErr(args ...string) (string, string, error)
(src/vbcmd.go lines 126-139): captures stdout and stderr into two buffers,
runs the child, classifies a failure, and returns both buffer contents
regardless of the outcome; the deferred vbcmd.setOpts(sudo(false)) runs on
return, on the local receiver copy. -/
def runOutErr (vbcmd : command) (goos : String) (verbose : Bool) (env : Env)
    (args : List String) : MethodResult (String × String × Option GoErr) :=
  let p := prepare vbcmd goos verbose args
  let res := env p.1.1 p.1.2
  { ret := (res.stdout, res.stderr, Option.map classifyErr res.err)
    eff := { log := p.2, stdoutWired := false, stderrWired := false }
    recv := setOptsCall vbcmd [«sudo» false] }

/-- strconv.Itoa on a Go int: the decimal string, with a leading minus sign
for negative values. -/
def strconvItoa (i : Int) : String := toString i

/-- Modelled from the spec: Manage() lives in a repository file that is not
under src/; per the spec it returns the Command runner for the host-side
management executable, whose program name and elevation flags are
construction-time state. We therefore take that runner as the explicit
parameter manage. The body below is ImportOVF from src/import.go lines
6-12: run with the fixed vector import, path, --vsys, strconv.Itoa(vsys),
--vmname, name, returning only the error of the run mode. -/
def ImportOVF (manage : command) (goos : String) (verbose : Bool) (env : Env)
    (path : String) (vsys : Int) (name : String) : Option GoErr :=
  (run manage goos verbose env
    ["import", path, "--vsys", strconvItoa vsys, "--vmname", name]).ret

/-- func isSudoer() (bool, error) (src/vbcmd.go lines 44-60). uc is the
error of user.Current (none on success); gids is the outcome of
me.GroupIds. GroupIds is evaluated on every platform (it sits in the init
clause of the if statement), but its error is examined only when GOOS is
linux; on other platforms the branch body is skipped and (false, nil)
is returned. On linux the group list is scanned for the literal sudo. -/
def isSudoer (goos : String) (uc : Option GoErr) (gids : Except GoErr (List String)) :
    Bool × Option GoErr :=
  match uc with
  | some err => (false, some err)
  | none =>
    if goos == "linux" then
      match gids with
      | .error err => (false, some err)
      | .ok groupIDs => (groupIDs.contains "sudo", none)
    else
      (false, none)

/-- An operating system where every child process succeeds silently. -/
def idleEnv : Env := fun _ _ => { stdout := "", stderr := "", err := none }

/-- An operating system where the executable is absent from the search
path: starting the child fails with a star-exec.Error wrapping
exec.ErrNotFound, exactly what os/exec reports in that case. -/
def notFoundEnv : Env := fun program _ =>
  { stdout := "", stderr := "", err := some (.execError program .execErrNotFound) }

/-! Helper lemmas shared by the claim theorems. -/

/-- The classification of src/vbcmd.go lines 101-106 is the identity: the
comparison ee == exec.ErrNotFound puts the asserted star-exec.Error value
itself, not its wrapped Err field, against exec.ErrNotFound; the two always
differ in dynamic type, so the branch producing ErrCommandNotFound is
unreachable and every error passes through unchanged. -/
theorem classifyErr_eq (e : GoErr) : classifyErr e = e := by
  cases e <;> rfl

/-- The ret field of run equals the classified child error. -/
theorem run_ret_eq (c : command) (goos : String) (verbose : Bool) (env : Env)
    (args : List String) :
    (run c goos verbose env args).ret
      = Option.map classifyErr
          (env (prepare c goos verbose args).1.1 (prepare c goos verbose args).1.2).err := by
  show (match (env (prepare c goos verbose args).1.1 (prepare c goos verbose args).1.2).err with
        | some e => some (classifyErr e)
        | none => none) = _
  cases (env (prepare c goos verbose args).1.1 (prepare c goos verbose args).1.2).err <;> rfl

/-- Classified child errors avoid the two machine sentinels whenever the
raw child error does. -/
theorem ne_sentinels_of_map (o : Option GoErr)
    (h : ∀ e, o = some e → e ≠ GoErr.errMachineExist ∧ e ≠ GoErr.errMachineNotExist) :
    Option.map classifyErr o ≠ some GoErr.errMachineExist ∧
    Option.map classifyErr o ≠ some GoErr.errMachineNotExist := by
  cases o with
  | none => simp
  | some e =>
    have he := h e rfl
    simp [classifyErr_eq, he.1, he.2]

/-! Claim theorems. -/

/-- C1: evaluation at the failing input. When the executable is absent from
the search path the child start fails with a star-exec.Error wrapping
exec.ErrNotFound, yet none of the three modes returns the sentinel
ErrCommandNotFound: the opaque wrapper error is returned instead, because
the source compares the asserted star-exec.Error value itself (not its Err
field) against exec.ErrNotFound, a comparison that is false for every
error value. -/
theorem notFound_error_not_normalized :
    (run ⟨"doesnotexist_tool", false, false⟩ "linux" false notFoundEnv ["list", "vms"]).ret
        = some (GoErr.execError "doesnotexist_tool" GoErr.execErrNotFound) ∧
    (run ⟨"doesnotexist_tool", false, false⟩ "linux" false notFoundEnv ["list", "vms"]).ret
        ≠ some GoErr.errCommandNotFound ∧
    (runOut ⟨"doesnotexist_tool", false, false⟩ "linux" false notFoundEnv ["list", "vms"]).ret.2
        ≠ some GoErr.errCommandNotFound ∧
    (runOutErr ⟨"doesnotexist_tool", false, false⟩ "linux" false notFoundEnv
        ["list", "vms"]).ret.2.2
        ≠ some GoErr.errCommandNotFound := by
  decide

/-- C2: evaluation at the failing input. The deferred
vbcmd.setOpts(sudo(false)) mutates a copy of a copy: run, runOut, runOutErr
and setOpts all take the receiver by value, so after any invocation on a
command whose sudo flag was true, the flag is still true, both on the final
local receiver copy of the method and, a fortiori, on the variable of the
caller. -/
theorem run_leaves_sudo_flag_set :
    ((callValueReceiver (fun v => run v "linux" false idleEnv ["list"])
        ⟨"VBoxManage", true, true⟩).2).«sudo» = true ∧
    (run ⟨"VBoxManage", true, true⟩ "linux" false idleEnv ["list"]).recv.«sudo» = true ∧
    (runOut ⟨"VBoxManage", true, true⟩ "linux" false idleEnv ["list"]).recv.«sudo» = true ∧
    (runOutErr ⟨"VBoxManage", true, true⟩ "linux" false idleEnv ["list"]).recv.«sudo» = true := by
  decide

/-- C3: setOpts takes its receiver by value, so a call c.setOpts(opts...)
leaves the command of the caller unchanged in every field, and every later
invocation on c prepares and runs exactly as if setOpts had never been
called. -/
theorem setOpts_value_receiver_frame (c : command) (opts : List option') :
    setOptsCall c opts = c ∧
    (∀ (goos : String) (verbose : Bool) (args : List String),
        prepare (setOptsCall c opts) goos verbose args = prepare c goos verbose args) ∧
    (∀ (goos : String) (verbose : Bool) (env : Env) (args : List String),
        (run (setOptsCall c opts) goos verbose env args).ret
          = (run c goos verbose env args).ret) :=
  ⟨rfl, fun _ _ _ => rfl, fun _ _ _ _ => rfl⟩

/-- C4: the executed vector is the elevation wrapper sudo, the original
program and the arguments of the caller, in that order, exactly when
sudoer and sudo hold and the platform is not windows; otherwise it is the
original program followed by the arguments; the arguments appear verbatim
after any prefix. -/
theorem prepare_executed_vector (c : command) (goos : String) (verbose : Bool)
    (args : List String) :
    execVector (prepare c goos verbose args).1
      = if c.sudoer && c.«sudo» && (goos != "windows") then
          "sudo" :: c.program :: args
        else
          c.program :: args := by
  cases h : c.sudoer && c.«sudo» && (goos != "windows") <;>
    simp [prepare, execVector, h]

/-- C5: preparing with elevation not requested yields the same invocation
as preparing with elevation requested for a user who is not permitted to
elevate: elevation changes the invocation only when both permitted and
requested. -/
theorem elevation_noop_without_sudoer (c : command) (goos : String) (verbose : Bool)
    (args : List String) :
    (prepare { c with «sudo» := false } goos verbose args).1
      = (prepare { c with sudoer := false, «sudo» := true } goos verbose args).1 := by
  simp [prepare]

/-- C6: runOutErr returns the captured stdout and stderr texts of the child
whatever the outcome was; in particular when the child wrote to stderr and
exited non-zero, the returned stderr text is non-empty and the returned
error is not nil. -/
theorem runOutErr_captures_both :
    (∀ (c : command) (goos : String) (verbose : Bool) (env : Env) (args : List String),
        (runOutErr c goos verbose env args).ret.1
          = (env (prepare c goos verbose args).1.1 (prepare c goos verbose args).1.2).stdout ∧
        (runOutErr c goos verbose env args).ret.2.1
          = (env (prepare c goos verbose args).1.1 (prepare c goos verbose args).1.2).stderr) ∧
    (∀ (c : command) (goos : String) (verbose : Bool) (env : Env) (args : List String)
        (code : Nat),
        (env (prepare c goos verbose args).1.1 (prepare c goos verbose args).1.2).stderr ≠ "" →
        (env (prepare c goos verbose args).1.1 (prepare c goos verbose args).1.2).err
            = some (GoErr.exitError code) →
        (runOutErr c goos verbose env args).ret.2.1 ≠ "" ∧
        (runOutErr c goos verbose env args).ret.2.2 ≠ none) := by
  refine ⟨fun c goos verbose env args => ⟨rfl, rfl⟩,
          fun c goos verbose env args code hne herr => ⟨hne, ?_⟩⟩
  have h2 : (runOutErr c goos verbose env args).ret.2.2
      = some (classifyErr (GoErr.exitError code)) := by
    show Option.map classifyErr
        (env (prepare c goos verbose args).1.1 (prepare c goos verbose args).1.2).err = _
    rw [herr]; rfl
  simp [h2]

/-- C6 witness: a child writing out to stdout and err to stderr and exiting
with code 1 yields a non-empty stderr text and a non-nil error. -/
theorem runOutErr_captures_both_witness :
    (runOutErr ⟨"VBoxManage", false, false⟩ "linux" false
        (fun _ _ => ⟨"out", "err", some (GoErr.exitError 1)⟩) []).ret.2.1 ≠ "" ∧
    (runOutErr ⟨"VBoxManage", false, false⟩ "linux" false
        (fun _ _ => ⟨"out", "err", some (GoErr.exitError 1)⟩) []).ret.2.2 ≠ none :=
  runOutErr_captures_both.2 ⟨"VBoxManage", false, false⟩ "linux" false
    (fun _ _ => ⟨"out", "err", some (GoErr.exitError 1)⟩) [] 1 (by decide) rfl

/-- C7 counterexample: on a platform other than linux a failing group
lookup is not propagated: isSudoer swallows the error of GroupIds and
returns (false, nil), contradicting the claim that a failing user or group
lookup is always propagated to the caller. -/
theorem isSudoer_swallows_lookup_error :
    isSudoer "windows" none (Except.error (GoErr.other "group lookup failed"))
      = (false, none) := by
  decide

/-- C7 amended: isSudoer propagates a user.Current error always, and a
GroupIds error only on linux; on linux it returns true exactly when the
group IDs contain sudo; on every other platform it returns (false, nil)
whatever the group lookup produced, even an error. -/
theorem isSudoer_amended :
    (∀ (goos : String) (gids : Except GoErr (List String)) (e : GoErr),
        isSudoer goos (some e) gids = (false, some e)) ∧
    (∀ (e : GoErr), isSudoer "linux" none (Except.error e) = (false, some e)) ∧
    (∀ (ids : List String),
        isSudoer "linux" none (Except.ok ids) = (ids.contains "sudo", none)) ∧
    (∀ (goos : String) (gids : Except GoErr (List String)), goos ≠ "linux" →
        isSudoer goos none gids = (false, none)) := by
  refine ⟨fun _ _ _ => rfl, fun _ => rfl, fun _ => rfl, fun goos gids h => ?_⟩
  simp [isSudoer, h]

/-- C7 amended witness: the windows platform with a failing group lookup. -/
theorem isSudoer_amended_witness :
    isSudoer "windows" none (Except.error (GoErr.other "boom")) = (false, none) :=
  isSudoer_amended.2.2.2 "windows" (Except.error (GoErr.other "boom")) (by decide)

/-- C8: for a successful, non-interactive child the returned value of each
mode is the same with verbosity on and off; verbosity changes only the log
lines and the wiring of the child streams. -/
theorem verbose_does_not_change_return (c : command) (goos : String) (env : Env)
    (args : List String)
    (_hsucc : ∀ (p : String) (a : List String), (env p a).err = none) :
    (run c goos true env args).ret = (run c goos false env args).ret ∧
    (runOut c goos true env args).ret = (runOut c goos false env args).ret ∧
    (runOutErr c goos true env args).ret = (runOutErr c goos false env args).ret :=
  ⟨rfl, rfl, rfl⟩

/-- C8 witness: a silently succeeding child, compared under both verbosity
settings. -/
theorem verbose_does_not_change_return_witness :
    (run ⟨"VBoxManage", false, false⟩ "linux" true idleEnv ["list"]).ret
      = (run ⟨"VBoxManage", false, false⟩ "linux" false idleEnv ["list"]).ret ∧
    (runOut ⟨"VBoxManage", false, false⟩ "linux" true idleEnv ["list"]).ret
      = (runOut ⟨"VBoxManage", false, false⟩ "linux" false idleEnv ["list"]).ret ∧
    (runOutErr ⟨"VBoxManage", false, false⟩ "linux" true idleEnv ["list"]).ret
      = (runOutErr ⟨"VBoxManage", false, false⟩ "linux" false idleEnv ["list"]).ret :=
  verbose_does_not_change_return ⟨"VBoxManage", false, false⟩ "linux" idleEnv ["list"]
    (fun _ _ => rfl)

/-- C9: ImportOVF forms exactly the vector import, path, --vsys, the
decimal string of vsys, --vmname, name, executes it through the no-output
mode run, and returns only the success-or-failure result of that mode; the
executed vector is the program of the runner (behind an elevation prefix
only when that applies) followed by those six tokens. -/
theorem ImportOVF_fixed_vector (manage : command) (goos : String) (verbose : Bool)
    (env : Env) (path : String) (vsys : Int) (name : String) :
    ImportOVF manage goos verbose env path vsys name
        = (run manage goos verbose env
            ["import", path, "--vsys", strconvItoa vsys, "--vmname", name]).ret ∧
    execVector (prepare manage goos verbose
          ["import", path, "--vsys", strconvItoa vsys, "--vmname", name]).1
        = (if manage.sudoer && manage.«sudo» && (goos != "windows") then
            ["sudo", manage.program]
          else
            [manage.program])
          ++ ["import", path, "--vsys", strconvItoa vsys, "--vmname", name] := by
  refine ⟨rfl, ?_⟩
  cases h : manage.sudoer && manage.«sudo» && (goos != "windows") <;>
    simp [prepare, execVector, h]

/-- C10: the sentinels ErrMachineExist and ErrMachineNotExist are never
returned by run, runOut, runOutErr, isSudoer or ImportOVF, provided the
operating system itself never hands back either value (it cannot: both are
fresh errors.New allocations private to this package). -/
theorem machine_sentinels_not_returned (c : command) (goos : String) (verbose : Bool)
    (env : Env) (args : List String) (uc : Option GoErr)
    (gids : Except GoErr (List String)) (manage : command) (path : String)
    (vsys : Int) (name : String)
    (henv : ∀ (p : String) (a : List String) (e : GoErr), (env p a).err = some e →
        e ≠ GoErr.errMachineExist ∧ e ≠ GoErr.errMachineNotExist)
    (huc : ∀ (e : GoErr), uc = some e →
        e ≠ GoErr.errMachineExist ∧ e ≠ GoErr.errMachineNotExist)
    (hgids : ∀ (e : GoErr), gids = Except.error e →
        e ≠ GoErr.errMachineExist ∧ e ≠ GoErr.errMachineNotExist) :
    ((run c goos verbose env args).ret ≠ some GoErr.errMachineExist ∧
     (run c goos verbose env args).ret ≠ some GoErr.errMachineNotExist) ∧
    ((runOut c goos verbose env args).ret.2 ≠ some GoErr.errMachineExist ∧
     (runOut c goos verbose env args).ret.2 ≠ some GoErr.errMachineNotExist) ∧
    ((runOutErr c goos verbose env args).ret.2.2 ≠ some GoErr.errMachineExist ∧
     (runOutErr c goos verbose env args).ret.2.2 ≠ some GoErr.errMachineNotExist) ∧
    ((isSudoer goos uc gids).2 ≠ some GoErr.errMachineExist ∧
     (isSudoer goos uc gids).2 ≠ some GoErr.errMachineNotExist) ∧
    (ImportOVF manage goos verbose env path vsys name ≠ some GoErr.errMachineExist ∧
     ImportOVF manage goos verbose env path vsys name ≠ some GoErr.errMachineNotExist) := by
  have hrun := ne_sentinels_of_map
    (env (prepare c goos verbose args).1.1 (prepare c goos verbose args).1.2).err
    (fun e he => henv _ _ e he)
  have hrunOut : (runOut c goos verbose env args).ret.2
      = Option.map classifyErr
          (env (prepare c goos verbose args).1.1 (prepare c goos verbose args).1.2).err := rfl
  have hrunOutErr : (runOutErr c goos verbose env args).ret.2.2
      = Option.map classifyErr
          (env (prepare c goos verbose args).1.1 (prepare c goos verbose args).1.2).err := rfl
  have himp := ne_sentinels_of_map
    (env (prepare manage goos verbose
        ["import", path, "--vsys", strconvItoa vsys, "--vmname", name]).1.1
      (prepare manage goos verbose
        ["import", path, "--vsys", strconvItoa vsys, "--vmname", name]).1.2).err
    (fun e he => henv _ _ e he)
  refine ⟨?_, ?_, ?_, ?_, ?_⟩
  · rw [run_ret_eq]; exact hrun
  · rw [hrunOut]; exact hrun
  · rw [hrunOutErr]; exact hrun
  · cases uc with
    | some e =>
      have he := huc e rfl
      simp [isSudoer, he.1, he.2]
    | none =>
      cases hg : goos == "linux" with
      | true =>
        cases gids with
        | error e =>
          have he := hgids e rfl
          simp [isSudoer, hg, he.1, he.2]
        | ok ids => simp [isSudoer, hg]
      | false => simp [isSudoer, hg]
  · have himpEq : ImportOVF manage goos verbose env path vsys name
        = Option.map classifyErr
            (env (prepare manage goos verbose
                ["import", path, "--vsys", strconvItoa vsys, "--vmname", name]).1.1
              (prepare manage goos verbose
                ["import", path, "--vsys", strconvItoa vsys, "--vmname", name]).1.2).err :=
      run_ret_eq manage goos verbose env _
    rw [himpEq]
    exact himp

/-- C10 witness: concrete runner, environment and lookups whose errors are
never the machine sentinels. -/
theorem machine_sentinels_not_returned_witness :
    (run ⟨"VBoxManage", false, false⟩ "linux" false idleEnv ["list"]).ret
      ≠ some GoErr.errMachineExist :=
  (machine_sentinels_not_returned ⟨"VBoxManage", false, false⟩ "linux" false idleEnv
    ["list"] none (Except.ok []) ⟨"VBoxManage", false, false⟩ "a.ovf" 0 "vm"
    (fun _ _ _ he => Option.noConfusion he)
    (fun _ he => Option.noConfusion he)
    (fun _ he => Except.noConfusion he)).1.1
